import Mathlib

/-!
Shallow embedding of `src/agent.py` (annielouu/git-flow-agent), a minimal
agentic tool-calling loop around an LLM client, together with the tool
bodies that the verified claims refer to.

Modelling conventions:
  * Python strings are `String`; `len` is `String.length` (character count,
    matching Python's text-mode semantics).
  * A Python callable that may raise is a Lean function returning
    `ExecResult` (`ok` for a returned value, `raised` for an exception).
  * The Anthropic client call `self.client.messages.create(...)` is an
    external collaborator; it is abstracted as an oracle function from the
    request data (tool schemas and transcript) to a `Response`.
  * External process invocations (`subprocess.run`) and the filesystem
    `open(...).write(...)` are likewise abstracted as function parameters,
    so that the command actually constructed by the code is observable.
  * Python `dict` values (`self.tool_names`, tool kwargs) are association
    lists with first-match lookup; keys stay unique under `dictSet`, the
    model of `d[k] = v` assignment.
-/

/-- Minimal JSON value model for tool parameter schemas
(the `parameters` dicts in `agent.py`). -/
inductive Json where
  | str (s : String)
  | bool (b : Bool)
  | arr (xs : List Json)
  | obj (fields : List (String × Json))

/-- Python exceptions as far as the code distinguishes them: `agent.py`
catches `FileNotFoundError` specially in the file tools and `Exception`
generally; a permission failure is a distinct subclass of the latter. -/
inductive PyExn where
  | fileNotFound (msg : String)
  | permissionError (msg : String)
  | other (msg : String)
  deriving DecidableEq

/-- The message text of an exception, `str(e)` in Python. -/
def PyExn.message : PyExn → String
  | .fileNotFound m => m
  | .permissionError m => m
  | .other m => m

/-- Outcome of calling a Python function that returns a string or raises. -/
inductive ExecResult where
  | ok (s : String)
  | raised (e : PyExn)
  deriving DecidableEq

/-- A JSON-scalar argument value appearing in a tool input payload. -/
inductive Val where
  | str (s : String)
  | bool (b : Bool)
  deriving DecidableEq

/-- The structured input payload of a ToolUse block (`block.input`),
a Python dict of keyword arguments. -/
abbrev Input := List (String × Val)

/-- The wire format of one tool schema, `Tool.to_anthropic_format`. -/
structure ToolSchema where
  name : String
  description : String
  input_schema : Json

/-- The `Tool` class: a named capability. `function` models the wrapped
Python callable invoked by `Tool.execute` with `**kwargs`; the `str(...)`
conversion in `execute` is absorbed into the `ok` payload. -/
structure Tool where
  name : String
  description : String
  parameters : Json
  function : Input → ExecResult

/-- `Tool.to_anthropic_format`. -/
def Tool.to_anthropic_format (t : Tool) : ToolSchema :=
  { name := t.name, description := t.description, input_schema := t.parameters }

/-- `Tool.execute`: calls the wrapped function with the given kwargs.
Raises whatever the wrapped function raises. -/
def Tool.execute (t : Tool) (input : Input) : ExecResult :=
  t.function input

/-- One content block of an assistant response: a `TextBlock` or a
`ToolUseBlock` (identifier, tool name, structured input). -/
inductive ContentBlock where
  | text (s : String)
  | toolUse (tid : String) (name : String) (input : Input)
  deriving DecidableEq

/-- One `tool_result` dict built by the loop body
(`{"type": "tool_result", "tool_use_id": ..., "content": ...}`). -/
structure ToolResultBlock where
  tool_use_id : String
  content : String
  deriving DecidableEq

/-- Message role. -/
inductive Role where
  | user
  | assistant
  deriving DecidableEq

/-- The `content` field of a transcript message: a plain string, the
verbatim assistant content-block list, or a list of tool results. -/
inductive MsgContent where
  | str (s : String)
  | blocks (bs : List ContentBlock)
  | toolResults (rs : List ToolResultBlock)
  deriving DecidableEq

/-- One transcript message (`{"role": ..., "content": ...}`). -/
structure Message where
  role : Role
  content : MsgContent
  deriving DecidableEq

/-- A model response as consumed by the loop: its `stop_reason` string and
its ordered content blocks. -/
structure Response where
  stop_reason : String
  content : List ContentBlock
  deriving DecidableEq

/-- The `Agent` class state the loop reads: the ordered tool list, the
`tool_names` lookup dict, and the iteration budget. The Anthropic client
and model name are external and carried by the oracle instead. -/
structure Agent where
  tools : List Tool
  tool_names : List (String × Tool)
  max_iterations : Nat

/-- `Agent.__init__`: empty tool list, empty lookup dict, budget 15. -/
def Agent.init : Agent :=
  { tools := [], tool_names := [], max_iterations := 15 }

/-- `Agent.add_tool`: appends to `self.tools` only; it does not touch
`self.tool_names`. -/
def Agent.add_tool (a : Agent) (t : Tool) : Agent :=
  { a with tools := a.tools ++ [t] }

/-- Dict lookup in `self.tool_names` (`target_tool in self.tool_names`
followed by `self.tool_names[target_tool]`). -/
def lookupTool : List (String × Tool) → String → Option Tool
  | [], _ => none
  | (k, t) :: rest, n => if k == n then some t else lookupTool rest n

/-- The per-block dispatch logic of the loop body (lines 73-81 of
`agent.py`): look the tool up, execute it catching any exception, or
produce the not-found error string. -/
def dispatchTool (tool_names : List (String × Tool)) (target_tool : String)
    (input : Input) : String :=
  match lookupTool tool_names target_tool with
  | some t =>
    match t.execute input with
    | ExecResult.ok res => res
    | ExecResult.raised e => "Error executing tool: " ++ e.message
  | none => "Error: Tool '" ++ target_tool ++ "' not found"

/-- The `tool_result` list built by the `for block in response.content`
loop: one result per `ToolUseBlock`, in order; other blocks are skipped. -/
def dispatchAll (tool_names : List (String × Tool)) :
    List ContentBlock → List ToolResultBlock
  | [] => []
  | ContentBlock.toolUse tid name input :: rest =>
    { tool_use_id := tid, content := dispatchTool tool_names name input }
      :: dispatchAll tool_names rest
  | ContentBlock.text _ :: rest => dispatchAll tool_names rest

/-- The ToolUse blocks of a content list, as (id, name, input) triples,
in order of appearance. -/
def toolUses : List ContentBlock → List (String × String × Input)
  | [] => []
  | ContentBlock.toolUse tid name input :: rest => (tid, name, input) :: toolUses rest
  | ContentBlock.text _ :: rest => toolUses rest

/-- Outcome of one iteration of the `for i in range(...)` loop body:
either the `return response.content` exit or the transcript passed to the
next iteration. -/
inductive StepOutcome where
  | finished (blocks : List ContentBlock)
  | next (messages : List Message)
  deriving DecidableEq

/-- One iteration of the loop body in `Agent.run`, given the response the
client returned for the current transcript: return on `end_turn`;
otherwise append the assistant message verbatim, then either append the
tool-results user message (on `tool_use`), append the continuation nudge
(on `max_tokens`), or fall through appending nothing further. -/
def runStep (a : Agent) (messages : List Message) (response : Response) :
    StepOutcome :=
  if response.stop_reason == "end_turn" then
    StepOutcome.finished response.content
  else
    let messages1 := messages ++ [{ role := Role.assistant, content := MsgContent.blocks response.content }]
    if response.stop_reason == "tool_use" then
      StepOutcome.next (messages1 ++
        [{ role := Role.user, content := MsgContent.toolResults (dispatchAll a.tool_names response.content) }])
    else if response.stop_reason == "max_tokens" then
      StepOutcome.next (messages1 ++
        [{ role := Role.user, content := MsgContent.str "Your response was cut off. Please continue." }])
    else
      StepOutcome.next messages1

/-- What `Agent.run` actually returns: on the `end_turn` path the raw
content-block list (`return response.content`), on budget exhaustion the
sentinel string. The Python annotation claims `-> str`; the union type
here records the actual behavior. -/
inductive RunResult where
  | content (blocks : List ContentBlock)
  | sentinel (s : String)
  deriving DecidableEq

/-- The external model client: from the request data that varies
(`tools=` and `messages=`) to a response. `model` and `max_tokens=1024`
are fixed in the source and absorbed into the oracle. -/
abbrev ModelOracle := List ToolSchema → List Message → Response

/-- The `for i in range(self.max_iterations)` loop of `Agent.run`, by
fuel: each unit of fuel is one loop iteration, hence one
`messages.create` request; falling off the loop returns the sentinel. -/
def runLoop (a : Agent) (oracle : ModelOracle) (tools : List ToolSchema) :
    Nat → List Message → RunResult
  | 0, _ => RunResult.sentinel "Error: Max iterations reached."
  | Nat.succ fuel, messages =>
    match runStep a messages (oracle tools messages) with
    | StepOutcome.finished c => RunResult.content c
    | StepOutcome.next m => runLoop a oracle tools fuel m

/-- `Agent.run`: seed the transcript with the single user message, build
the schema list once, and run the bounded loop. -/
def Agent.run (a : Agent) (user_message : String) (oracle : ModelOracle) :
    RunResult :=
  runLoop a oracle (a.tools.map Tool.to_anthropic_format) a.max_iterations
    [{ role := Role.user, content := MsgContent.str user_message }]

/-- Number of `messages.create` requests issued by `runLoop` with the
given fuel and starting transcript (instrumentation of the same
recursion; one request per iteration entered). -/
def runRequests (a : Agent) (oracle : ModelOracle) (tools : List ToolSchema) :
    Nat → List Message → Nat
  | 0, _ => 0
  | Nat.succ fuel, messages =>
    match runStep a messages (oracle tools messages) with
    | StepOutcome.finished _ => 1
    | StepOutcome.next m => 1 + runRequests a oracle tools fuel m

/-- Python dict assignment `d[k] = v`: overwrite the entry if the key is
present, otherwise append a new entry. Models
`agent.tool_names[tool.name] = tool` in the `__main__` block. -/
def dictSet (d : List (String × Tool)) (k : String) (v : Tool) :
    List (String × Tool) :=
  if d.any (fun p => p.fst == k) then
    d.map (fun p => if p.fst == k then (k, v) else p)
  else
    d ++ [(k, v)]

/-- The per-tool registration performed by the `__main__` block: both
`agent.add_tool(tool)` and `agent.tool_names[tool.name] = tool`. -/
def registerMain (a : Agent) (t : Tool) : Agent :=
  let a1 := a.add_tool t
  { a1 with tool_names := dictSet a1.tool_names t.name t }

/-- An agent whose tools were added only through `Agent.add_tool`,
starting from a fresh `Agent()`. -/
def agentFromAddOnly (ts : List Tool) : Agent :=
  ts.foldl Agent.add_tool Agent.init

/-- A completed `subprocess.run` result: return code, stdout, stderr. -/
structure SubprocessResult where
  returncode : Int
  stdout : String
  stderr : String

/-- The argv list built by `git_push` for `subprocess.run`:
`["git", "push", "-u", "origin", branch]`. -/
def git_push_argv (branch : String) : List String :=
  ["git", "push", "-u", "origin", branch]

/-- The default of `git_push`'s `branch` parameter in the source
(`branch: str = "main"`). -/
def git_push_default_branch : String := "main"

/-- The inner function of `create_git_push_tool`. `runCmd` abstracts
`subprocess.run(argv, capture_output=True, text=True, cwd=repo_path)`. -/
def git_push (runCmd : List String → String → SubprocessResult)
    (branch : String) (repo_path : String) : String :=
  let result := runCmd (git_push_argv branch) repo_path
  if result.returncode == 0 then
    "Successfully pushed to " ++ branch
  else
    "Error pushing: " ++ result.stderr

/-- The state of a git repository as far as claim C7 mentions it: which
branch is currently checked out. The source never reads this. -/
structure RepoState where
  currentBranch : String

/-- A concrete repository whose checked-out branch is `feature`. -/
def repoFeature : RepoState := { currentBranch := "feature" }

/-- Outcome of `open(file_path, "w")` followed by `f.write(content)`:
either the written character count that `write` returned, or a raised
exception from either call. -/
inductive WriteAttempt where
  | opened (bytesWritten : Nat)
  | raised (e : PyExn)
  deriving DecidableEq

/-- The inner function of `create_write_file_tool` (`write_to_file`).
`fs` abstracts the filesystem effect of opening `file_path` for writing
and writing `content`, yielding the count `f.write` reported or raising.
Note the error branch interpolates the whole `content` string, and the
success message spells "Succesfully", both as in the source. -/
def write_to_file (fs : String → String → WriteAttempt)
    (file_path : String) (content : String) : String :=
  match fs file_path content with
  | WriteAttempt.opened bytes =>
    if bytes == content.length then
      "Succesfully wrote to " ++ file_path
    else
      "Error writing to file Expected write length: " ++ content ++
        ", actual length: " ++ toString bytes
  | WriteAttempt.raised (PyExn.fileNotFound _) =>
    "Error: File not found: " ++ file_path
  | WriteAttempt.raised e => "Error writing to file: " ++ e.message

/-!
Concrete instances used by witnesses and counterexamples.
-/

/-- A registered tool whose execution always raises. -/
def boomTool : Tool :=
  { name := "boom", description := "always raises", parameters := Json.obj [],
    function := fun _ => ExecResult.raised (PyExn.other "kaboom") }

/-- A registered tool whose execution succeeds with a fixed string. -/
def okTool : Tool :=
  { name := "oktool", description := "always succeeds", parameters := Json.obj [],
    function := fun _ => ExecResult.ok "done" }

/-- A lookup dict holding exactly `boomTool`. -/
def boomNames : List (String × Tool) := [("boom", boomTool)]

/-- A seed user message used in concrete instances. -/
def seedMsg : Message := { role := Role.user, content := MsgContent.str "hi" }

/-- A response with an unrecognized stop reason and one text block. -/
def respUnknown : Response :=
  { stop_reason := "pause_turn", content := [ContentBlock.text "x"] }

/-- A tool-use response carrying one ToolUse block for `boom`. -/
def respBoom : Response :=
  { stop_reason := "tool_use",
    content := [ContentBlock.text "calling", ContentBlock.toolUse "id1" "boom" []] }

/-- A truncation response. -/
def respTrunc : Response :=
  { stop_reason := "max_tokens", content := [ContentBlock.text "partial answer"] }

/-- An oracle that always requests a tool and never ends the turn. -/
def oracleToolLoop : ModelOracle := fun _ _ => respBoom

/-- An oracle that immediately ends the turn with one text block. -/
def oracleEnd : ModelOracle :=
  fun _ _ => { stop_reason := "end_turn", content := [ContentBlock.text "hello"] }

/-- A filesystem stub whose write raises `FileNotFoundError` (the parent
directory of the target does not exist). -/
def fsMissingDir : String → String → WriteAttempt :=
  fun _ _ => WriteAttempt.raised (PyExn.fileNotFound "No such file or directory")

/-- A filesystem stub whose write raises `PermissionError`. -/
def fsLocked : String → String → WriteAttempt :=
  fun _ _ => WriteAttempt.raised (PyExn.permissionError "Permission denied")

/-- A filesystem stub whose write succeeds, reporting the full length. -/
def fsOk : String → String → WriteAttempt :=
  fun _ content => WriteAttempt.opened content.length

/-- A subprocess stub on which every command exits 0. -/
def procOk : List String → String → SubprocessResult :=
  fun _ _ => { returncode := 0, stdout := "", stderr := "" }

/-!
Helper lemmas shared by the claim theorems.
-/

/-- The tool-result ids produced by the dispatch loop are exactly the ids
of the ToolUse blocks, in order. -/
theorem dispatchAll_ids (tn : List (String × Tool)) (bs : List ContentBlock) :
    (dispatchAll tn bs).map ToolResultBlock.tool_use_id
      = (toolUses bs).map (fun p => p.1) := by
  induction bs with
  | nil => rfl
  | cons b rest ih =>
    cases b with
    | text s => simpa [dispatchAll, toolUses] using ih
    | toolUse tid name input => simp [dispatchAll, toolUses, ih]

/-- Exactly one tool result is produced per ToolUse block. -/
theorem dispatchAll_length (tn : List (String × Tool)) (bs : List ContentBlock) :
    (dispatchAll tn bs).length = (toolUses bs).length := by
  induction bs with
  | nil => rfl
  | cons b rest ih =>
    cases b with
    | text s => simpa [dispatchAll, toolUses] using ih
    | toolUse tid name input => simp [dispatchAll, toolUses, ih]

/-- Unfolding of one loop iteration. -/
theorem runLoop_succ (a : Agent) (oracle : ModelOracle) (tools : List ToolSchema)
    (fuel : Nat) (msgs : List Message) :
    runLoop a oracle tools (fuel + 1) msgs =
      match runStep a msgs (oracle tools msgs) with
      | StepOutcome.finished c => RunResult.content c
      | StepOutcome.next m => runLoop a oracle tools fuel m := rfl

/-- A loop iteration whose step continues recurses on the new transcript
with one unit of budget consumed. -/
theorem runLoop_next (a : Agent) (oracle : ModelOracle) (tools : List ToolSchema)
    (fuel : Nat) (msgs m : List Message)
    (h : runStep a msgs (oracle tools msgs) = StepOutcome.next m) :
    runLoop a oracle tools (fuel + 1) msgs = runLoop a oracle tools fuel m := by
  rw [runLoop_succ, h]

/-- On a `tool_use` response the loop body appends the verbatim assistant
message and then the single tool-results user message. -/
theorem runStep_tool_use (a : Agent) (msgs : List Message) (r : Response)
    (h : r.stop_reason = "tool_use") :
    runStep a msgs r = StepOutcome.next (msgs ++
      [{ role := Role.assistant, content := MsgContent.blocks r.content },
       { role := Role.user,
         content := MsgContent.toolResults (dispatchAll a.tool_names r.content) }]) := by
  have h1 : (r.stop_reason == "end_turn") = false := by rw [h]; rfl
  have h2 : (r.stop_reason == "tool_use") = true := by rw [h]; rfl
  simp [runStep, h1, h2]

/-- On a `max_tokens` response the loop body appends the verbatim
assistant message and then the continuation nudge. -/
theorem runStep_max_tokens (a : Agent) (msgs : List Message) (r : Response)
    (h : r.stop_reason = "max_tokens") :
    runStep a msgs r = StepOutcome.next (msgs ++
      [{ role := Role.assistant, content := MsgContent.blocks r.content },
       { role := Role.user,
         content := MsgContent.str "Your response was cut off. Please continue." }]) := by
  have h1 : (r.stop_reason == "end_turn") = false := by rw [h]; rfl
  have h2 : (r.stop_reason == "tool_use") = false := by rw [h]; rfl
  have h3 : (r.stop_reason == "max_tokens") = true := by rw [h]; rfl
  simp [runStep, h1, h2, h3]

/-- On a response with a stop reason outside the three handled ones, the
loop body appends only the verbatim assistant message. -/
theorem runStep_other (a : Agent) (msgs : List Message) (r : Response)
    (h1 : r.stop_reason ≠ "end_turn") (h2 : r.stop_reason ≠ "tool_use")
    (h3 : r.stop_reason ≠ "max_tokens") :
    runStep a msgs r = StepOutcome.next (msgs ++
      [{ role := Role.assistant, content := MsgContent.blocks r.content }]) := by
  have e1 : (r.stop_reason == "end_turn") = false := beq_eq_false_iff_ne.mpr h1
  have e2 : (r.stop_reason == "tool_use") = false := beq_eq_false_iff_ne.mpr h2
  have e3 : (r.stop_reason == "max_tokens") = false := beq_eq_false_iff_ne.mpr h3
  simp [runStep, e1, e2, e3]

/-- Any response that is not `end_turn` makes the loop body continue. -/
theorem runStep_of_ne_end_turn (a : Agent) (msgs : List Message) (r : Response)
    (h : r.stop_reason ≠ "end_turn") :
    ∃ m : List Message, runStep a msgs r = StepOutcome.next m := by
  have e1 : (r.stop_reason == "end_turn") = false := beq_eq_false_iff_ne.mpr h
  simp only [runStep, e1, Bool.false_eq_true, if_false]
  split
  · exact ⟨_, rfl⟩
  · split
    · exact ⟨_, rfl⟩
    · exact ⟨_, rfl⟩

/-- The request count of the loop is bounded by its fuel. -/
theorem runRequests_le (a : Agent) (oracle : ModelOracle) (tools : List ToolSchema)
    (fuel : Nat) : ∀ msgs : List Message, runRequests a oracle tools fuel msgs ≤ fuel := by
  induction fuel with
  | zero => intro msgs; simp [runRequests]
  | succ fuel ih =>
    intro msgs
    cases hstep : runStep a msgs (oracle tools msgs) with
    | finished c => simp [runRequests, hstep]
    | next m =>
      have hm := ih m
      simp only [runRequests, hstep]
      omega

/-- If the oracle never answers `end_turn`, the loop exhausts its fuel and
returns the sentinel. -/
theorem runLoop_sentinel (a : Agent) (oracle : ModelOracle) (tools : List ToolSchema)
    (h : ∀ msgs : List Message, (oracle tools msgs).stop_reason ≠ "end_turn")
    (fuel : Nat) : ∀ msgs : List Message,
    runLoop a oracle tools fuel msgs = RunResult.sentinel "Error: Max iterations reached." := by
  induction fuel with
  | zero => intro msgs; rfl
  | succ fuel ih =>
    intro msgs
    obtain ⟨m, hm⟩ := runStep_of_ne_end_turn a msgs (oracle tools msgs) (h msgs)
    rw [runLoop_next a oracle tools fuel msgs m hm]
    exact ih m

/-- Folding `add_tool` over a tool list appends to `tools` and leaves
`tool_names` unchanged. -/
theorem foldl_add_tool (ts : List Tool) : ∀ a : Agent,
    (ts.foldl Agent.add_tool a).tools = a.tools ++ ts
    ∧ (ts.foldl Agent.add_tool a).tool_names = a.tool_names := by
  induction ts with
  | nil => intro a; simp
  | cons t rest ih =>
    intro a
    have h := ih (a.add_tool t)
    simp only [List.foldl_cons]
    refine ⟨?_, ?_⟩
    · rw [h.1]; simp [Agent.add_tool]
    · rw [h.2]; rfl

/-- Looking up a key in a dict right after setting it finds the new
value: the append case. -/
theorem lookup_append_self (v : Tool) (k : String) : ∀ d : List (String × Tool),
    d.any (fun p => p.fst == k) = false → lookupTool (d ++ [(k, v)]) k = some v := by
  intro d
  induction d with
  | nil => intro _; simp [lookupTool]
  | cons p rest ih =>
    intro h
    obtain ⟨k0, t0⟩ := p
    simp only [List.any_cons, Bool.or_eq_false_iff] at h
    simp only [List.cons_append, lookupTool, h.1, Bool.false_eq_true, if_false]
    exact ih h.2

/-- Looking up a key in a dict right after setting it finds the new
value: the overwrite case. -/
theorem lookup_map_replace (v : Tool) (k : String) : ∀ d : List (String × Tool),
    d.any (fun p => p.fst == k) = true →
    lookupTool (d.map (fun p => if p.fst == k then (k, v) else p)) k = some v := by
  intro d
  induction d with
  | nil => intro h; simp at h
  | cons p rest ih =>
    intro h
    obtain ⟨k0, t0⟩ := p
    by_cases hk : (k0 == k) = true
    · simp only [List.map_cons]
      rw [if_pos hk]
      simp [lookupTool]
    · simp only [List.any_cons, Bool.or_eq_true_iff] at h
      have hrest : rest.any (fun p => p.fst == k) = true := by
        rcases h with h | h
        · exact absurd h hk
        · exact h
      simp only [List.map_cons]
      rw [if_neg hk]
      simp only [lookupTool]
      rw [if_neg hk]
      exact ih hrest

/-- Python dict-set followed by lookup of the same key yields the value
just stored. -/
theorem lookup_dictSet (d : List (String × Tool)) (k : String) (v : Tool) :
    lookupTool (dictSet d k v) k = some v := by
  unfold dictSet
  by_cases h : d.any (fun p => p.fst == k) = true
  · rw [if_pos h]
    exact lookup_map_replace v k d h
  · have hf : d.any (fun p => p.fst == k) = false := by
      cases hb : d.any (fun p => p.fst == k)
      · rfl
      · exact absurd hb h
    rw [if_neg (by simp [hf])]
    exact lookup_append_self v k d hf

/-!
Claim theorems.
-/

/-- Claim C1: for a tool name absent from the lookup dict, dispatch
returns exactly the string "Error: Tool '<n>' not found" (which contains
the name), invokes no capability (the result is independent of the input
payload), raises nothing, and on a tool-use response the loop continues
to the next iteration carrying that error as the ToolResult. -/
theorem claim_C1 (tool_names : List (String × Tool)) (n : String) (input : Input)
    (h : lookupTool tool_names n = none) :
    dispatchTool tool_names n input = "Error: Tool '" ++ n ++ "' not found"
    ∧ (∀ input2 : Input, dispatchTool tool_names n input2 = dispatchTool tool_names n input)
    ∧ (∃ pre post : String, dispatchTool tool_names n input = pre ++ n ++ post)
    ∧ (∀ (a : Agent) (msgs : List Message) (tid : String), a.tool_names = tool_names →
        runStep a msgs { stop_reason := "tool_use", content := [ContentBlock.toolUse tid n input] }
          = StepOutcome.next (msgs ++
              [{ role := Role.assistant,
                 content := MsgContent.blocks [ContentBlock.toolUse tid n input] },
               { role := Role.user,
                 content := MsgContent.toolResults
                   [{ tool_use_id := tid,
                      content := "Error: Tool '" ++ n ++ "' not found" }] }])) := by
  have key : ∀ inp : Input,
      dispatchTool tool_names n inp = "Error: Tool '" ++ n ++ "' not found" := by
    intro inp
    simp [dispatchTool, h]
  refine ⟨key input, fun input2 => by rw [key input2, key input],
    ⟨"Error: Tool '", "' not found", key input⟩, ?_⟩
  intro a msgs tid ha
  rw [runStep_tool_use a msgs _ rfl]
  simp [dispatchAll, ha, key]

/-- Claim C1 witness at a concrete unknown name. -/
theorem claim_C1_witness :
    dispatchTool [] "ghost" [] = "Error: Tool '" ++ "ghost" ++ "' not found" :=
  (claim_C1 [] "ghost" [] rfl).1

/-- Claim C2: for a registered tool whose execution raises, dispatch
catches the exception and returns exactly "Error executing tool:
<message>"; nothing propagates, and on a tool-use response the loop
continues with that error as the ToolResult. -/
theorem claim_C2 (tool_names : List (String × Tool)) (n : String) (input : Input)
    (t : Tool) (e : PyExn)
    (h1 : lookupTool tool_names n = some t)
    (h2 : t.execute input = ExecResult.raised e) :
    dispatchTool tool_names n input = "Error executing tool: " ++ e.message
    ∧ (∃ pre : String, dispatchTool tool_names n input = pre ++ e.message)
    ∧ (∀ (a : Agent) (msgs : List Message) (tid : String), a.tool_names = tool_names →
        runStep a msgs { stop_reason := "tool_use", content := [ContentBlock.toolUse tid n input] }
          = StepOutcome.next (msgs ++
              [{ role := Role.assistant,
                 content := MsgContent.blocks [ContentBlock.toolUse tid n input] },
               { role := Role.user,
                 content := MsgContent.toolResults
                   [{ tool_use_id := tid,
                      content := "Error executing tool: " ++ e.message }] }])) := by
  have key : dispatchTool tool_names n input = "Error executing tool: " ++ e.message := by
    simp [dispatchTool, h1, h2]
  refine ⟨key, ⟨"Error executing tool: ", key⟩, ?_⟩
  intro a msgs tid ha
  rw [runStep_tool_use a msgs _ rfl]
  simp [dispatchAll, ha, key]

/-- Claim C2 witness at a concrete always-raising tool. -/
theorem claim_C2_witness :
    dispatchTool boomNames "boom" [] = "Error executing tool: " ++ "kaboom" := by
  have h1 : lookupTool boomNames "boom" = some boomTool := by
    simp [boomNames, lookupTool]
  exact (claim_C2 boomNames "boom" [] boomTool (PyExn.other "kaboom") h1 rfl).1

/-- Claim C3: on a tool-use response the loop body appends the verbatim
assistant message, then one single user message holding exactly one
ToolResult per ToolUse block, with matching identifiers in the same
order, all before the next model request is issued. -/
theorem claim_C3 (a : Agent) (msgs : List Message) (r : Response)
    (h : r.stop_reason = "tool_use") :
    runStep a msgs r = StepOutcome.next (msgs ++
        [{ role := Role.assistant, content := MsgContent.blocks r.content },
         { role := Role.user,
           content := MsgContent.toolResults (dispatchAll a.tool_names r.content) }])
    ∧ (dispatchAll a.tool_names r.content).map ToolResultBlock.tool_use_id
        = (toolUses r.content).map (fun p => p.1)
    ∧ (dispatchAll a.tool_names r.content).length = (toolUses r.content).length
    ∧ (∀ (oracle : ModelOracle) (tools : List ToolSchema) (fuel : Nat),
        oracle tools msgs = r →
        runLoop a oracle tools (fuel + 1) msgs = runLoop a oracle tools fuel (msgs ++
          [{ role := Role.assistant, content := MsgContent.blocks r.content },
           { role := Role.user,
             content := MsgContent.toolResults (dispatchAll a.tool_names r.content) }])) := by
  refine ⟨runStep_tool_use a msgs r h, dispatchAll_ids _ _, dispatchAll_length _ _, ?_⟩
  intro oracle tools fuel horacle
  apply runLoop_next
  rw [horacle]
  exact runStep_tool_use a msgs r h

/-- Claim C3 witness at a concrete tool-use response. -/
theorem claim_C3_witness :
    (dispatchAll Agent.init.tool_names respBoom.content).map ToolResultBlock.tool_use_id
      = (toolUses respBoom.content).map (fun p => p.1) :=
  (claim_C3 Agent.init [seedMsg] respBoom rfl).2.1

/-- Claim C4: the default budget is 15; the loop issues at most `fuel`
model requests; if no end-turn response ever arrives the run returns the
sentinel string result, which is distinct from every normal answer. -/
theorem claim_C4 (a : Agent) (oracle : ModelOracle) (user_message : String)
    (h : ∀ (tools : List ToolSchema) (msgs : List Message),
      (oracle tools msgs).stop_reason ≠ "end_turn") :
    Agent.init.max_iterations = 15
    ∧ (∀ (tools : List ToolSchema) (fuel : Nat) (msgs : List Message),
        runRequests a oracle tools fuel msgs ≤ fuel)
    ∧ a.run user_message oracle = RunResult.sentinel "Error: Max iterations reached."
    ∧ (∀ blocks : List ContentBlock,
        RunResult.sentinel "Error: Max iterations reached." ≠ RunResult.content blocks) := by
  refine ⟨rfl, fun tools fuel msgs => runRequests_le a oracle tools fuel msgs, ?_, ?_⟩
  · unfold Agent.run
    exact runLoop_sentinel a oracle _ (h _) a.max_iterations _
  · intro blocks hcontra
    exact RunResult.noConfusion hcontra

/-- Claim C4 witness: an oracle that always requests a tool exhausts the
budget and yields the sentinel. -/
theorem claim_C4_witness :
    Agent.init.run "hi" oracleToolLoop = RunResult.sentinel "Error: Max iterations reached." := by
  have h : ∀ (tools : List ToolSchema) (msgs : List Message),
      (oracleToolLoop tools msgs).stop_reason ≠ "end_turn" := by
    intro tools msgs
    show ("tool_use" : String) ≠ "end_turn"
    decide
  exact (claim_C4 Agent.init oracleToolLoop "hi" h).2.2.1

/-- Claim C5: on a length-truncated response the loop body appends the
assistant response and then the synthetic continuation nudge as a user
message, dispatches no tool, and re-enters the loop consuming one unit
of budget. -/
theorem claim_C5 (a : Agent) (msgs : List Message) (r : Response)
    (h : r.stop_reason = "max_tokens") :
    runStep a msgs r = StepOutcome.next (msgs ++
        [{ role := Role.assistant, content := MsgContent.blocks r.content },
         { role := Role.user,
           content := MsgContent.str "Your response was cut off. Please continue." }])
    ∧ (∀ (oracle : ModelOracle) (tools : List ToolSchema) (fuel : Nat),
        oracle tools msgs = r →
        runLoop a oracle tools (fuel + 1) msgs = runLoop a oracle tools fuel (msgs ++
          [{ role := Role.assistant, content := MsgContent.blocks r.content },
           { role := Role.user,
             content := MsgContent.str "Your response was cut off. Please continue." }])) := by
  refine ⟨runStep_max_tokens a msgs r h, ?_⟩
  intro oracle tools fuel horacle
  apply runLoop_next
  rw [horacle]
  exact runStep_max_tokens a msgs r h

/-- Claim C5 witness at a concrete truncated response. -/
theorem claim_C5_witness :
    runStep Agent.init [seedMsg] respTrunc = StepOutcome.next ([seedMsg] ++
      [{ role := Role.assistant, content := MsgContent.blocks respTrunc.content },
       { role := Role.user,
         content := MsgContent.str "Your response was cut off. Please continue." }]) :=
  (claim_C5 Agent.init [seedMsg] respTrunc rfl).1

/-- Claim C6 counterexample: on an unrecognized stop reason the loop does
append something, namely the assistant message, so the claim that nothing
is appended is false at this concrete input. -/
theorem claim_C6_counterexample :
    runStep Agent.init [seedMsg] respUnknown
      = StepOutcome.next [seedMsg,
          { role := Role.assistant, content := MsgContent.blocks [ContentBlock.text "x"] }]
    ∧ decide (runStep Agent.init [seedMsg] respUnknown = StepOutcome.next [seedMsg]) = false := by
  decide

/-- Claim C6 amended: on a response whose stop reason is outside the
three handled values, the loop appends the verbatim assistant message
and nothing else, then continues to the next iteration consuming one
unit of budget. -/
theorem claim_C6_amended_thm (a : Agent) (msgs : List Message) (r : Response)
    (h1 : r.stop_reason ≠ "end_turn") (h2 : r.stop_reason ≠ "tool_use")
    (h3 : r.stop_reason ≠ "max_tokens") :
    runStep a msgs r = StepOutcome.next (msgs ++
        [{ role := Role.assistant, content := MsgContent.blocks r.content }])
    ∧ (∀ (oracle : ModelOracle) (tools : List ToolSchema) (fuel : Nat),
        oracle tools msgs = r →
        runLoop a oracle tools (fuel + 1) msgs
          = runLoop a oracle tools fuel (msgs ++
              [{ role := Role.assistant, content := MsgContent.blocks r.content }])) := by
  refine ⟨runStep_other a msgs r h1 h2 h3, ?_⟩
  intro oracle tools fuel horacle
  apply runLoop_next
  rw [horacle]
  exact runStep_other a msgs r h1 h2 h3

/-- Claim C6 witness at a concrete unrecognized stop reason. -/
theorem claim_C6_witness :
    runStep Agent.init [seedMsg] respUnknown = StepOutcome.next ([seedMsg] ++
      [{ role := Role.assistant, content := MsgContent.blocks respUnknown.content }]) :=
  (claim_C6_amended_thm Agent.init [seedMsg] respUnknown (by decide) (by decide) (by decide)).1

/-- Claim C7 counterexample: the push command built by the default
invocation carries the default branch "main", which differs from the
checked-out branch of a repository whose current branch is "feature";
the code never consults the repository state. -/
theorem claim_C7_counterexample :
    (git_push_argv git_push_default_branch).get? 4 = some "main"
    ∧ decide (git_push_default_branch = repoFeature.currentBranch) = false := by
  decide

/-- Claim C7 amended: the push capability pushes the branch named by its
`branch` argument (default "main") to a remote named "origin", regardless
of the currently checked-out branch: the only external command consulted
is `git push -u origin <branch>` run in `repo_path`, and a zero exit
reports success for that argument branch. -/
theorem claim_C7_amended_thm (run1 run2 : List String → String → SubprocessResult)
    (branch repo_path : String)
    (h : run1 (git_push_argv branch) repo_path = run2 (git_push_argv branch) repo_path) :
    git_push run1 branch repo_path = git_push run2 branch repo_path
    ∧ (git_push_argv branch).get? 3 = some "origin"
    ∧ (git_push_argv branch).get? 4 = some branch
    ∧ git_push procOk branch repo_path = "Successfully pushed to " ++ branch := by
  refine ⟨?_, rfl, rfl, rfl⟩
  unfold git_push
  rw [h]

/-- Claim C7 witness at a concrete successful push. -/
theorem claim_C7_witness :
    git_push procOk "main" "." = "Successfully pushed to " ++ "main" :=
  (claim_C7_amended_thm procOk procOk "main" "." rfl).2.2.2

/-- Claim C8 counterexample: when the underlying write raises
`FileNotFoundError`, the tool returns "Error: File not found: <path>",
not a string of the form "Error writing to file: <message>". -/
theorem claim_C8_counterexample :
    write_to_file fsMissingDir "/nonexistent/dir/f.txt" "hello"
      = "Error: File not found: /nonexistent/dir/f.txt"
    ∧ List.isPrefixOf ("Error writing to file: ".data)
        (write_to_file fsMissingDir "/nonexistent/dir/f.txt" "hello").data = false := by
  decide

/-- Claim C8 amended: when the write returns a count, the tool reports
success exactly for a count equal to the content length and a length
mismatch error otherwise; a raised `PermissionError` or any other
non-file-not-found exception yields "Error writing to file: <message>";
a raised `FileNotFoundError` yields "Error: File not found: <path>". -/
theorem claim_C8_amended_thm (fs : String → String → WriteAttempt)
    (file_path content : String) :
    (∀ n : Nat, fs file_path content = WriteAttempt.opened n → n = content.length →
        write_to_file fs file_path content = "Succesfully wrote to " ++ file_path)
    ∧ (∀ n : Nat, fs file_path content = WriteAttempt.opened n → n ≠ content.length →
        write_to_file fs file_path content
          = "Error writing to file Expected write length: " ++ content ++
              ", actual length: " ++ toString n)
    ∧ (∀ m : String, fs file_path content = WriteAttempt.raised (PyExn.permissionError m) →
        write_to_file fs file_path content = "Error writing to file: " ++ m)
    ∧ (∀ m : String, fs file_path content = WriteAttempt.raised (PyExn.other m) →
        write_to_file fs file_path content = "Error writing to file: " ++ m)
    ∧ (∀ m : String, fs file_path content = WriteAttempt.raised (PyExn.fileNotFound m) →
        write_to_file fs file_path content = "Error: File not found: " ++ file_path) := by
  refine ⟨?_, ?_, ?_, ?_, ?_⟩
  · intro n hfs hn
    have hb : (n == content.length) = true := by simp [hn]
    unfold write_to_file
    rw [hfs]
    simp [hb]
  · intro n hfs hn
    have hb : (n == content.length) = false := by simp [hn]
    unfold write_to_file
    rw [hfs]
    simp [hb]
  · intro m hfs
    unfold write_to_file
    rw [hfs]
    rfl
  · intro m hfs
    unfold write_to_file
    rw [hfs]
    rfl
  · intro m hfs
    unfold write_to_file
    rw [hfs]

/-- Claim C8 witness: the spec scenario, a permission error on
`/root/locked` with content "hello". -/
theorem claim_C8_witness :
    write_to_file fsLocked "/root/locked" "hello"
      = "Error writing to file: " ++ "Permission denied" :=
  (claim_C8_amended_thm fsLocked "/root/locked" "hello").2.2.1 "Permission denied" rfl

/-- Claim C9: evaluated at the failing input (a first response that ends
the turn with one text block), the run returns the raw content-block
list, the `return response.content` path, rather than a textual answer
string; the sentinel is the only string-valued outcome. -/
theorem claim_C9_code_bug :
    Agent.init.run "hi" oracleEnd = RunResult.content [ContentBlock.text "hello"] := by
  decide

/-- Claim C10: registering tools through `add_tool` alone leaves the
dispatch dict empty while their schemas are advertised, so every lookup
fails with the not-found error; `add_tool` never changes `tool_names`,
and the dispatch dict only finds a tool after the separate
`tool_names[name] = tool` write that the entry point performs. -/
theorem claim_C10 (ts : List Tool) (t : Tool) (h : t ∈ ts) (n : String) (input : Input) :
    (agentFromAddOnly ts).tools = ts
    ∧ (agentFromAddOnly ts).tool_names = []
    ∧ Tool.to_anthropic_format t ∈ (agentFromAddOnly ts).tools.map Tool.to_anthropic_format
    ∧ dispatchTool (agentFromAddOnly ts).tool_names n input
        = "Error: Tool '" ++ n ++ "' not found"
    ∧ (∀ (b : Agent) (u : Tool), (b.add_tool u).tool_names = b.tool_names)
    ∧ (∀ (b : Agent) (u : Tool),
        lookupTool (registerMain b u).tool_names u.name = some u) := by
  have htools : (agentFromAddOnly ts).tools = ts := by
    have hf := foldl_add_tool ts Agent.init
    simpa [agentFromAddOnly, Agent.init] using hf.1
  have hnames : (agentFromAddOnly ts).tool_names = [] := by
    have hf := foldl_add_tool ts Agent.init
    simpa [agentFromAddOnly, Agent.init] using hf.2
  refine ⟨htools, hnames, ?_, ?_, fun b u => rfl, ?_⟩
  · rw [htools]
    exact List.mem_map_of_mem Tool.to_anthropic_format h
  · rw [hnames]
    simp [dispatchTool, lookupTool]
  · intro b u
    simp only [registerMain]
    exact lookup_dictSet _ _ _

/-- Claim C10 witness: an agent holding only `okTool` via `add_tool`
cannot dispatch it. -/
theorem claim_C10_witness :
    dispatchTool (agentFromAddOnly [okTool]).tool_names "oktool" []
      = "Error: Tool '" ++ "oktool" ++ "' not found" :=
  (claim_C10 [okTool] okTool (List.mem_singleton.mpr rfl) "oktool" []).2.2.2.1
